import Mathlib

/-!
Verification of the Lumenitos wallet contracts: the account factory
(src/contracts/account_factory/src/lib.rs) and the simple account
(src/contracts/simple_account/src/lib.rs).

Modelling choices, following the spec's design notes (section 9):

* A Soroban invocation either returns normally or traps; a trap aborts the
  whole invocation and rolls back every state change it attempted.  Each
  entry point is therefore modelled as a function from the pre-state to
  `Option (result × post-state)`, with `none` standing for a trap (no
  post-state exists: the environment discards all mutations).
* The host's deterministic address derivation
  (`env.deployer().with_current_contract(salt)`) is an injected capability:
  a function `derive : Addr → Bytes32 → Addr` from the deploying contract's
  identity and the salt to the derived address.  Both `create` and
  `get_address` call it through the same model primitives, exactly as both
  call the same host deployer in the source.
* `env.crypto().ed25519_verify` is an injected boolean oracle
  `verify : Bytes32 → Bytes32 → Bytes64 → Bool` (public key, message,
  signature); the host traps when it returns false.
* The factory's instance storage holds one key, the symbol "wasm"; the
  account's instance storage holds one key, `DataKey::Owner`.  Each is
  modelled as an `Option Bytes32` field.  The ledger additionally records
  which addresses already host a deployed contract instance, since
  `deploy_v2` traps on an occupied address.
-/

/-- A single byte. -/
abbrev Byte := Fin 256

/-- The Soroban `BytesN<32>` type: exactly 32 bytes. -/
abbrev Bytes32 := { l : List Byte // l.length = 32 }

/-- The Soroban `BytesN<64>` type: exactly 64 bytes. -/
abbrev Bytes64 := { l : List Byte // l.length = 64 }

/-- State of one simple_account contract instance: its instance storage,
which holds at most the owner public key under `DataKey::Owner`. -/
structure AccountState where
  owner : Option Bytes32
deriving DecidableEq, Repr

/-- State visible to the factory contract: its own identity (the address the
host reports as the current contract), its instance storage under the symbol
"wasm", and the ledger's record of which addresses already host a deployed
contract instance. -/
structure LedgerState (Addr : Type) where
  factoryId : Addr
  wasmStorage : Option Bytes32
  instances : List (Addr × AccountState)
deriving DecidableEq, Repr

/-- simple_account `__constructor` (src/contracts/simple_account/src/lib.rs,
lines 22-27): if the `Owner` key is already present it traps with
"owner is already set"; otherwise it stores the public key. -/
def SimpleAccount.constructor (public_key : Bytes32) (st : AccountState) :
    Option (Unit × AccountState) :=
  if st.owner.isSome then
    none
  else
    some ((), { st with owner := some public_key })

/-- simple_account `__check_auth` (src/contracts/simple_account/src/lib.rs,
lines 33-46): reads the owner key (`.unwrap()` traps when absent), then calls
the host's `ed25519_verify`, which traps when the signature does not verify.
The `_auth_context : Vec<Context>` argument is never inspected by the source,
so the element type is left as a type parameter here. -/
def SimpleAccount.check_auth {Ctx : Type}
    (ed25519_verify : Bytes32 → Bytes32 → Bytes64 → Bool)
    (signature_payload : Bytes32) (signature : Bytes64)
    (_auth_context : List Ctx) (st : AccountState) :
    Option (Unit × AccountState) :=
  match st.owner with
  | none => none
  | some public_key =>
    if ed25519_verify public_key signature_payload signature then
      some ((), st)
    else
      none

/-- Host primitive `env.deployer().with_current_contract(salt)
.deployed_address()`: derives the address from the current contract's
identity and the salt, via the injected derivation function. -/
def deployedAddress {Addr : Type} (derive : Addr → Bytes32 → Addr)
    (st : LedgerState Addr) (salt : Bytes32) : Addr :=
  derive st.factoryId salt

/-- Host primitive `env.deployer().with_current_contract(salt)
.deploy_v2(wasm_hash, (ctor_arg,))`: derives the address by the same formula
as `deployedAddress`, traps when a contract instance already occupies that
address, otherwise instantiates a fresh instance there and runs the new
contract's constructor with the given argument. -/
def deploy_v2 {Addr : Type} [DecidableEq Addr] (derive : Addr → Bytes32 → Addr)
    (salt : Bytes32) (_wasm_hash : Bytes32) (ctor_arg : Bytes32)
    (st : LedgerState Addr) : Option (Addr × LedgerState Addr) :=
  let addr := derive st.factoryId salt
  if (st.instances.lookup addr).isSome then
    none
  else
    match SimpleAccount.constructor ctor_arg { owner := none } with
    | none => none
    | some (_, acct) =>
      some (addr, { st with instances := (addr, acct) :: st.instances })

/-- account_factory `__constructor` (src/contracts/account_factory/src/lib.rs,
lines 16-18): stores the wasm hash under the symbol "wasm".  The source has
no guard at all: it writes unconditionally. -/
def AccountFactory.constructor {Addr : Type} (wasm_hash : Bytes32)
    (st : LedgerState Addr) : Option (Unit × LedgerState Addr) :=
  some ((), { st with wasmStorage := some wasm_hash })

/-- account_factory `create` (src/contracts/account_factory/src/lib.rs,
lines 36-49): reads the wasm hash (`.expect("wasm_hash not set")` traps when
absent), then deploys with the owner bytes as both the salt and the single
constructor argument. -/
def AccountFactory.create {Addr : Type} [DecidableEq Addr]
    (derive : Addr → Bytes32 → Addr) (owner_bytes : Bytes32)
    (st : LedgerState Addr) : Option (Addr × LedgerState Addr) :=
  match st.wasmStorage with
  | none => none
  | some wasm_hash => deploy_v2 derive owner_bytes wasm_hash owner_bytes st

/-- account_factory `wasm_hash` (src/contracts/account_factory/src/lib.rs,
lines 52-57), the spec's `getBlueprint`: reads the stored wasm hash, trapping
when absent. -/
def AccountFactory.wasm_hash {Addr : Type} (st : LedgerState Addr) :
    Option (Bytes32 × LedgerState Addr) :=
  match st.wasmStorage with
  | none => none
  | some h => some (h, st)

/-- account_factory `get_address` (src/contracts/account_factory/src/lib.rs,
lines 67-71), the spec's `getAddress`: derives the address for the signer
bytes without deploying.  It touches no storage. -/
def AccountFactory.get_address {Addr : Type} (derive : Addr → Bytes32 → Addr)
    (signer_bytes : Bytes32) (st : LedgerState Addr) :
    Option (Addr × LedgerState Addr) :=
  some (deployedAddress derive st signer_bytes, st)

/-! Concrete sample values used by the witness theorems. -/

/-- A concrete 32-byte value (all zeros), used as a sample owner key. -/
def sampleKey : Bytes32 := ⟨List.replicate 32 0, by simp⟩

/-- A second, distinct concrete 32-byte value (all ones). -/
def sampleKey2 : Bytes32 := ⟨List.replicate 32 1, by simp⟩

/-- A concrete 32-byte value standing for a wasm hash. -/
def sampleHash : Bytes32 := ⟨List.replicate 32 2, by simp⟩

/-- A second, distinct concrete wasm hash. -/
def sampleHash2 : Bytes32 := ⟨List.replicate 32 3, by simp⟩

/-- A concrete 64-byte value standing for a signature. -/
def sampleSig : Bytes64 := ⟨List.replicate 64 0, by simp⟩

/-- A concrete address-derivation function over `Nat` addresses. -/
def sampleDerive : Nat → Bytes32 → Nat :=
  fun fid k => 257 * fid + (k.val.headI : Fin 256).val

/-- A concrete factory state whose blueprint is set and whose ledger hosts no
instance yet. -/
def stInit : LedgerState Nat :=
  { factoryId := 7, wasmStorage := some sampleHash, instances := [] }

/-- The state `AccountFactory.create sampleDerive sampleKey` reaches from
`stInit`. -/
def stAfter : LedgerState Nat :=
  { factoryId := 7, wasmStorage := some sampleHash,
    instances := [(257 * 7, { owner := some sampleKey })] }

/-- A concrete factory state with the same identity as `stInit` but no stored
blueprint and no deployed instance. -/
def stEmpty : LedgerState Nat :=
  { factoryId := 7, wasmStorage := none, instances := [] }

/-- A concrete account-instance state with no stored owner. -/
def acctFresh : AccountState := { owner := none }

/-- A concrete account-instance state owned by `sampleKey`. -/
def acctOwned : AccountState := { owner := some sampleKey }

/-- C1: whenever `Factory.create k` succeeds, the address it returns is the
one `Factory.get_address k` returns on the same factory — both before the
deployment and after it, since both derive the address from the factory's
identity and `k` through the same derivation function. -/
theorem create_get_address_agree {Addr : Type} [DecidableEq Addr]
    (derive : Addr → Bytes32 → Addr) (k : Bytes32)
    (st st' : LedgerState Addr) (addr : Addr)
    (h : AccountFactory.create derive k st = some (addr, st')) :
    AccountFactory.get_address derive k st = some (addr, st) ∧
    AccountFactory.get_address derive k st' = some (addr, st') := by
  cases hw : st.wasmStorage with
  | none => simp [AccountFactory.create, hw] at h
  | some wh =>
    simp [AccountFactory.create, hw, deploy_v2, SimpleAccount.constructor] at h
    obtain ⟨-, ha, hs⟩ := h
    subst ha
    subst hs
    simp [AccountFactory.get_address, deployedAddress]

/-- C1 witness: a concrete successful `create` on a factory with a stored
blueprint, agreeing with `get_address` before and after. -/
theorem create_get_address_agree_witness :
    AccountFactory.create sampleDerive sampleKey stInit = some (1799, stAfter) ∧
    (AccountFactory.get_address sampleDerive sampleKey stInit = some (1799, stInit) ∧
     AccountFactory.get_address sampleDerive sampleKey stAfter = some (1799, stAfter)) :=
  ⟨by decide,
   create_get_address_agree sampleDerive sampleKey stInit stAfter 1799 (by decide)⟩

/-- C2: `__check_auth` accepts (returns rather than traps) exactly when an
owner key is stored and the injected ed25519 oracle validates the signature
over the payload under that key; any mismatch, oracle rejection, or missing
owner makes it trap, aborting the enclosing invocation. -/
theorem check_auth_accepts_iff {Ctx : Type}
    (verify : Bytes32 → Bytes32 → Bytes64 → Bool)
    (st : AccountState) (p : Bytes32) (s : Bytes64) (ctx : List Ctx) :
    (SimpleAccount.check_auth verify p s ctx st).isSome ↔
      ∃ k, st.owner = some k ∧ verify k p s = true := by
  cases ho : st.owner with
  | none => simp [SimpleAccount.check_auth, ho]
  | some pk =>
    simp only [SimpleAccount.check_auth, ho]
    constructor
    · intro hacc
      refine ⟨pk, rfl, ?_⟩
      by_contra hv
      simp [hv] at hacc
    · rintro ⟨k, hk, hv⟩
      cases hk
      simp [hv]

/-- C3: a second `create` for the same key on the factory state a successful
`create` produced traps (the derived address is already occupied), and on
that state the blueprint is still readable via `wasm_hash` and unchanged. -/
theorem create_second_time_fails {Addr : Type} [DecidableEq Addr]
    (derive : Addr → Bytes32 → Addr) (k : Bytes32)
    (st st' : LedgerState Addr) (addr : Addr)
    (h : AccountFactory.create derive k st = some (addr, st')) :
    AccountFactory.create derive k st' = none ∧
    st'.wasmStorage = st.wasmStorage ∧
    ∃ b, AccountFactory.wasm_hash st' = some (b, st') := by
  cases hw : st.wasmStorage with
  | none => simp [AccountFactory.create, hw] at h
  | some wh =>
    simp [AccountFactory.create, hw, deploy_v2, SimpleAccount.constructor] at h
    obtain ⟨-, ha, hs⟩ := h
    subst ha
    subst hs
    refine ⟨?_, by simp [hw], wh, by simp [AccountFactory.wasm_hash]⟩
    simp [AccountFactory.create, deploy_v2, List.lookup]

/-- C3 witness: concretely, repeating `create` for the sample key after its
first success traps, while the blueprint stays readable. -/
theorem create_second_time_fails_witness :
    AccountFactory.create sampleDerive sampleKey stInit = some (1799, stAfter) ∧
    (AccountFactory.create sampleDerive sampleKey stAfter = none ∧
     stAfter.wasmStorage = stInit.wasmStorage ∧
     ∃ b, AccountFactory.wasm_hash stAfter = some (b, stAfter)) :=
  ⟨by decide,
   create_second_time_fails sampleDerive sampleKey stInit stAfter 1799 (by decide)⟩

/-- C4: once the simple_account constructor has succeeded with key `k`, any
further constructor call on that instance traps, and the stored owner key is
still `k`. -/
theorem account_ctor_only_once (k k' : Bytes32) (st st' : AccountState)
    (h : SimpleAccount.constructor k st = some ((), st')) :
    SimpleAccount.constructor k' st' = none ∧ st'.owner = some k := by
  by_cases ho : st.owner.isSome
  · simp [SimpleAccount.constructor, ho] at h
  · simp [SimpleAccount.constructor, ho] at h
    subst h
    simp [SimpleAccount.constructor]

/-- C4 witness: a concrete fresh instance accepts the sample key once and
rejects a second constructor call. -/
theorem account_ctor_only_once_witness :
    SimpleAccount.constructor sampleKey acctFresh = some ((), acctOwned) ∧
    (SimpleAccount.constructor sampleKey2 acctOwned = none ∧
     acctOwned.owner = some sampleKey) :=
  ⟨by decide,
   account_ctor_only_once sampleKey sampleKey2 acctFresh acctOwned (by decide)⟩

/-- C5: the auth-context argument never influences `__check_auth`: for any
two context lists, over any two element types, the outcome (verdict and
state) is identical. -/
theorem check_auth_context_independent {Ctx1 Ctx2 : Type}
    (verify : Bytes32 → Bytes32 → Bytes64 → Bool)
    (st : AccountState) (p : Bytes32) (s : Bytes64)
    (c1 : List Ctx1) (c2 : List Ctx2) :
    SimpleAccount.check_auth verify p s c1 st =
      SimpleAccount.check_auth verify p s c2 st := rfl

/-- C6 counterexample: the factory constructor, invoked on a factory whose
blueprint is already stored, does not trap — it succeeds and replaces the
stored blueprint with the new one. -/
theorem factory_ctor_reinvocation_cex :
    AccountFactory.constructor sampleHash2 stInit =
      some ((), { stInit with wasmStorage := some sampleHash2 }) ∧
    stInit.wasmStorage = some sampleHash ∧ sampleHash2 ≠ sampleHash := by
  refine ⟨by decide, by decide, by decide⟩

/-- C6 amended: the factory constructor has no local re-invocation guard: on
any state, also one whose blueprint is already stored, it succeeds and
overwrites the stored blueprint, leaving the factory identity and the
deployed instances untouched; one-time invocation is a precondition enforced
only by the external deployment environment. -/
theorem factory_ctor_no_guard {Addr : Type} (h : Bytes32)
    (st : LedgerState Addr) :
    ∃ st', AccountFactory.constructor h st = some ((), st') ∧
      st'.wasmStorage = some h ∧ st'.factoryId = st.factoryId ∧
      st'.instances = st.instances := by
  exact ⟨{ st with wasmStorage := some h }, rfl, rfl, rfl, rfl⟩

/-- C7: on a factory with no stored blueprint, `create` traps for every key,
and `wasm_hash` (the spec's `getBlueprint`) traps as well. -/
theorem create_missing_blueprint_fails {Addr : Type} [DecidableEq Addr]
    (derive : Addr → Bytes32 → Addr) (k : Bytes32) (st : LedgerState Addr)
    (h : st.wasmStorage = none) :
    AccountFactory.create derive k st = none ∧
    AccountFactory.wasm_hash st = none := by
  simp [AccountFactory.create, AccountFactory.wasm_hash, h]

/-- C7 witness: on a concrete uninitialised factory both `create` and
`wasm_hash` trap. -/
theorem create_missing_blueprint_fails_witness :
    stEmpty.wasmStorage = none ∧
    (AccountFactory.create sampleDerive sampleKey stEmpty = none ∧
     AccountFactory.wasm_hash stEmpty = none) :=
  ⟨rfl, create_missing_blueprint_fails sampleDerive sampleKey stEmpty rfl⟩

/-- C8: `get_address` is pure and deterministic: it succeeds, leaves the
factory state exactly as it was, and a second call on the resulting state
returns the same address again. -/
theorem get_address_pure_deterministic {Addr : Type}
    (derive : Addr → Bytes32 → Addr) (k : Bytes32) (st : LedgerState Addr) :
    ∃ a st1, AccountFactory.get_address derive k st = some (a, st1) ∧
      st1 = st ∧
      AccountFactory.get_address derive k st1 = some (a, st1) := by
  exact ⟨deployedAddress derive st k, st, rfl, rfl, rfl⟩

/-- C9: `get_address` never reads the blueprint or the deployed-instance
ledger: on any two factory states with the same factory identity — one may
have no blueprint stored at all — it succeeds and returns the same address,
leaving each state unchanged. -/
theorem get_address_ignores_storage {Addr : Type}
    (derive : Addr → Bytes32 → Addr) (k : Bytes32)
    (st1 st2 : LedgerState Addr) (h : st1.factoryId = st2.factoryId) :
    ∃ a, AccountFactory.get_address derive k st1 = some (a, st1) ∧
      AccountFactory.get_address derive k st2 = some (a, st2) := by
  exact ⟨derive st1.factoryId k, rfl, by
    simp [AccountFactory.get_address, deployedAddress, h]⟩

/-- C9 witness: a factory with no blueprint and a factory with a stored
blueprint and a deployed instance, sharing one identity, predict the same
address for the sample key. -/
theorem get_address_ignores_storage_witness :
    stEmpty.factoryId = stAfter.factoryId ∧
    ∃ a, AccountFactory.get_address sampleDerive sampleKey stEmpty =
        some (a, stEmpty) ∧
      AccountFactory.get_address sampleDerive sampleKey stAfter =
        some (a, stAfter) :=
  ⟨rfl, get_address_ignores_storage sampleDerive sampleKey stEmpty stAfter rfl⟩

/-- C10: `__check_auth` never writes to storage: whenever it returns (it
accepted), the instance state after the call equals the state before it, so
in particular the stored owner key is unchanged; when it traps, the
environment discards the invocation, leaving no post-state at all. -/
theorem check_auth_no_state_change {Ctx : Type}
    (verify : Bytes32 → Bytes32 → Bytes64 → Bool)
    (st st' : AccountState) (p : Bytes32) (s : Bytes64) (ctx : List Ctx)
    (r : Unit) (h : SimpleAccount.check_auth verify p s ctx st = some (r, st')) :
    st' = st ∧ st'.owner = st.owner := by
  cases ho : st.owner with
  | none => simp [SimpleAccount.check_auth, ho] at h
  | some pk =>
    by_cases hv : verify pk p s
    · simp [SimpleAccount.check_auth, ho, hv] at h
      cases h
      simp [ho]
    · simp [SimpleAccount.check_auth, ho, hv] at h

/-- C10 witness: with an all-accepting oracle, a concrete accepting
`__check_auth` call leaves the sample instance state unchanged. -/
theorem check_auth_no_state_change_witness :
    SimpleAccount.check_auth (fun _ _ _ => true) sampleKey2 sampleSig
        ([0] : List Nat) acctOwned = some ((), acctOwned) ∧
    (acctOwned = acctOwned ∧ acctOwned.owner = acctOwned.owner) :=
  ⟨by decide,
   check_auth_no_state_change (fun _ _ _ => true) acctOwned acctOwned
     sampleKey2 sampleSig [0] () (by decide)⟩
